import Mathlib

/-!
Verification of the PSYBot lead-intake bot (`src/main.py`) against its
natural-language specification.

The development shallowly embeds the persistence layer (the SQLite `users`
table and the functions that read and write it) and the conversation
handlers of the intake finite-state machine.  A database is a list of
`UserRecord`s; each fallible store operation takes an explicit `fl : Bool`
flag modelling the `except` branch of the Python code (a storage fault:
the function logs, returns `False`, and the uncommitted transaction leaves
the store unchanged).  Conversation state is the aiogram FSM state plus
its per-user data dictionary.
-/

/-- One row of the `users` table created by `init_database`
(`src/main.py`, lines 141-153).  `created_at` is modelled as an abstract
monotone tick. -/
structure UserRecord where
  user_id : Int
  username : Option String
  full_name : String
  problem_segment : Option String
  custom_problem : Option String
  real_name : Option String
  age : Option Int
  phone : Option String
  created_at : Nat
deriving DecidableEq

/-- The whole `users` table. -/
abbrev DB : Type := List UserRecord

-- Callback-data constants (`class CallbackData`, lines 78-84).
namespace CallbackData

def ANXIETY : String := "btn_anxiety"

def RELATIONS : String := "btn_relations"

def SELF : String := "btn_self"

def CUSTOM : String := "btn_custom"

def SIGNUP : String := "btn_signup"

end CallbackData

/-- `PROBLEM_NAMES.get(key, default)` for the dict at lines 87-92. -/
def PROBLEM_NAMES_get (key : String) (dflt : String) : String :=
  if key = CallbackData.ANXIETY then "Тревога/Стресс"
  else if key = CallbackData.RELATIONS then "Отношения"
  else if key = CallbackData.SELF then "Выгорание/Самооценка"
  else if key = CallbackData.CUSTOM then "Своя проблема"
  else dflt

/-- `user_exists` (lines 165-176): `SELECT 1 FROM users WHERE user_id = ?`. -/
def user_exists (db : DB) (uid : Int) : Bool :=
  List.any db (fun r => r.user_id == uid)

/-- `add_user` (lines 179-195): `INSERT OR IGNORE INTO users (user_id,
username, full_name) VALUES (?, ?, ?)`.  `fl` models the `except` branch
(storage fault: nothing committed, `False` returned); on the normal path
the function returns `True` whether or not the insert was ignored. -/
def add_user (fl : Bool) (db : DB) (uid : Int) (username full_name : String)
    (now : Nat) : Bool × DB :=
  if fl then (false, db)
  else if user_exists db uid then (true, db)
  else
    let r : UserRecord := { user_id := uid, username := some username,
                            full_name := full_name, problem_segment := none,
                            custom_problem := none, real_name := none,
                            age := none, phone := none, created_at := now }
    (true, db ++ [r])

/-- Python truthiness of an optional string (`if custom_problem and ...`):
truthy iff present and non-empty. -/
def pyTruthyStr : Option String → Bool
  | none => false
  | some s => !(s == "")

/-- `update_user_problem` (lines 198-225).  When `custom_problem` is truthy
and the segment is the Custom token, both `problem_segment` and
`custom_problem` are written; otherwise only `problem_segment` is written
(the old `custom_problem` is left in place).  `UPDATE ... WHERE user_id = ?`
touches only matching rows. -/
def update_user_problem (fl : Bool) (db : DB) (uid : Int)
    (problem_segment : String) (custom_problem : Option String) : Bool × DB :=
  if fl then (false, db)
  else if pyTruthyStr custom_problem && (problem_segment == CallbackData.CUSTOM) then
    (true, List.map (fun r => if r.user_id = uid then
      { r with problem_segment := some problem_segment,
               custom_problem := custom_problem } else r) db)
  else
    (true, List.map (fun r => if r.user_id = uid then
      { r with problem_segment := some problem_segment } else r) db)

/-- `update_user_contact_info` (lines 228-247): a single
`UPDATE users SET real_name = ?, age = ?, phone = ? WHERE user_id = ?`
in one transaction; on a fault nothing is committed and `False` is
returned. -/
def update_user_contact_info (fl : Bool) (db : DB) (uid : Int)
    (real_name : String) (age : Int) (phone : String) : Bool × DB :=
  if fl then (false, db)
  else
    (true, List.map (fun r => if r.user_id = uid then
      { r with real_name := some real_name, age := some age,
               phone := some phone } else r) db)

/-- The statistics dictionary assembled by `get_user_stats` (lines 250-294).
The `problems_distribution` and `recent_requests` entries are
display-only strings and are not modelled. -/
structure UserStats where
  total_users : Nat
  users_with_requests : Nat
deriving DecidableEq

/-- `get_user_stats` (lines 250-294): `total_users` is `COUNT(*)`;
`users_with_requests` counts rows `WHERE real_name IS NOT NULL AND phone
IS NOT NULL` (the `age` column is not consulted). -/
def get_user_stats (db : DB) : UserStats :=
  { total_users := List.length db,
    users_with_requests :=
      List.length (List.filter (fun r => r.real_name.isSome && r.phone.isSome) db) }

/-- Descending insertion for `ORDER BY created_at DESC`. -/
def insertDesc (r : UserRecord) : List UserRecord → List UserRecord
  | [] => [r]
  | x :: xs => if x.created_at ≤ r.created_at then r :: x :: xs
               else x :: insertDesc r xs

/-- Rows ordered newest-first, as in the export query. -/
def sortByCreatedDesc (db : DB) : List UserRecord :=
  List.foldr insertDesc [] db

/-- `export_users_to_excel` (lines 297-323): returns `(filename, error)`;
on an empty table it returns `(None, "База данных пуста")`, otherwise the
full row set ordered newest-first and no error. -/
def export_users_to_excel (db : DB) : Option (List UserRecord) × Option String :=
  if List.length db = 0 then (none, some "База данных пуста")
  else (some (sortByCreatedDesc db), none)

/-- Whitespace for Python's `str.strip()` (the space, tab, carriage
return and newline characters; Python also strips some rarer Unicode
whitespace, which no claim exercises). -/
def pySpace (c : Char) : Bool := c.isWhitespace

/-- `str.strip()` on the character list of a string. -/
def pyStripChars (l : List Char) : List Char :=
  List.reverse (List.dropWhile pySpace (List.reverse (List.dropWhile pySpace l)))

/-- `str.strip()`. -/
def pyStrip (s : String) : String := String.mk (pyStripChars s.data)

/-- Python `len()` of a string, counting characters. -/
def pyLen (s : String) : Nat := List.length s.data

/-- Value of an ASCII digit character. -/
def digitVal (c : Char) : Nat := c.toNat - 48

/-- Digits after the first one of a Python integer literal:
`digit (('_')? digit)*`.  A single underscore may separate two digits;
it may not trail, lead, or double. -/
def pyDigitsCore (acc : Nat) : List Char → Option Nat
  | [] => some acc
  | '_' :: c2 :: cs2 =>
      if c2.isDigit then pyDigitsCore (acc * 10 + digitVal c2) cs2 else none
  | '_' :: [] => none
  | c :: cs =>
      if c.isDigit then pyDigitsCore (acc * 10 + digitVal c) cs else none

/-- A non-empty run of decimal digits with optional single separating
underscores, as accepted by Python's `int`. -/
def pyDigits : List Char → Option Nat
  | [] => none
  | c :: cs => if c.isDigit then pyDigitsCore (digitVal c) cs else none

/-- Python `int(s)` on a string: strips surrounding whitespace, then an
optional sign followed by digits (with optional single underscores
between digits); `none` models the `ValueError`. -/
def pyIntParse (s : String) : Option Int :=
  match pyStripChars s.data with
  | [] => none
  | c :: cs =>
    if c = '+' then (pyDigits cs).map (fun n => (n : Int))
    else if c = '-' then (pyDigits cs).map (fun n => -(n : Int))
    else (pyDigits (c :: cs)).map (fun n => (n : Int))

/-- The aiogram FSM states of `class Form` (lines 69-74). -/
inductive FormState
  | name
  | age
  | custom_problem
  | phone
deriving DecidableEq

/-- The per-user FSM data dictionary: the keys written by
`state.update_data` (`name` in `handle_name_input`, `age` in
`handle_age_input`). -/
structure FSMData where
  name : Option String
  age : Option Int
deriving DecidableEq

/-- Per-user conversation context: current FSM state (`none` = no state
set / cleared) plus the data dictionary. -/
structure Conv where
  form : Option FormState
  data : FSMData
deriving DecidableEq

/-- `state.clear()`: clears both the state and the data dictionary. -/
def clearedConv : Conv := { form := none, data := { name := none, age := none } }

/-- `handle_custom_problem_input` (lines 569-598): trims the text; fewer
than 10 characters re-prompts without any commit; otherwise stores the
Custom segment and the text via `update_user_problem` and clears the
state. -/
def handle_custom_problem_input (uid : Int) (conv : Conv) (db : DB)
    (text : String) : Conv × DB :=
  let custom_problem := pyStrip text
  if pyLen custom_problem < 10 then (conv, db)
  else
    (clearedConv,
     (update_user_problem false db uid CallbackData.CUSTOM (some custom_problem)).2)

/-- `handle_problem_selection` (lines 511-548): a fixed-category button
writes `PROBLEM_NAMES.get(key, "Неизвестная проблема")` via
`update_user_problem` with no custom text; no FSM state is involved. -/
def handle_problem_selection (uid : Int) (problem_key : String) (db : DB) : DB :=
  (update_user_problem false db uid
    (PROBLEM_NAMES_get problem_key "Неизвестная проблема") none).2

/-- `handle_name_input` (lines 616-635): trims the text; fewer than 2
characters re-prompts without commit; otherwise holds the name in the FSM
data and advances to `Form.age`.  No database access. -/
def handle_name_input (conv : Conv) (db : DB) (text : String) : Conv × DB :=
  let name := pyStrip text
  if pyLen name < 2 then (conv, db)
  else ({ form := some FormState.age,
          data := { conv.data with name := some name } }, db)

/-- `handle_age_input` (lines 638-665): trims the text and applies
`int(...)`; a `ValueError` or a value outside `[10,100]` re-prompts
without commit; otherwise holds the age in the FSM data and advances to
`Form.phone`.  No database access. -/
def handle_age_input (conv : Conv) (db : DB) (text : String) : Conv × DB :=
  let age_text := pyStrip text
  match pyIntParse age_text with
  | none => (conv, db)
  | some age =>
    if age < 10 ∨ age > 100 then (conv, db)
    else ({ form := some FormState.phone,
            data := { conv.data with age := some age } }, db)

/-- The inline normalization of `handle_phone_input`: drop one leading
`@` if present (lines 683-684). -/
def stripLeadingAt (s : String) : String :=
  match s.data with
  | '@' :: cs => String.mk cs
  | _ => s

/-- `handle_phone_input` (lines 668-760): trims the text; a length below
3 (checked BEFORE the `@` strip) re-prompts without commit; otherwise a
single leading `@` is removed, the held name (default "Не указано") and
age (default 0) are fetched from the FSM data, all three contact fields
are committed via `update_user_contact_info`, and the state is cleared.
The problem lookup and the operator notification only shape message text
and are not modelled. -/
def handle_phone_input (uid : Int) (conv : Conv) (db : DB)
    (text : String) : Conv × DB :=
  let telegram_username := pyStrip text
  if pyLen telegram_username < 3 then (conv, db)
  else
    let telegram_username := stripLeadingAt telegram_username
    let name := conv.data.name.getD "Не указано"
    let age := conv.data.age.getD 0
    (clearedConv,
     (update_user_contact_info false db uid name age telegram_username).2)

/-- The database file on disk: the column list of the `users` table plus
its rows.  `none` models an absent `/data/psychology_bot.db`. -/
structure StoreFile where
  columns : List String
  users : DB
deriving DecidableEq

/-- The full column set created by `init_database` (lines 141-153). -/
def fullColumns : List String :=
  ["user_id", "username", "full_name", "problem_segment", "custom_problem",
   "real_name", "age", "phone", "created_at"]

/-- The columns `command_start` requires (line 389). -/
def requiredColumns : List String := ["custom_problem", "age", "real_name"]

/-- `init_database` (lines 128-162): if the database file exists it is
deleted first (`os.remove`), then a fresh file with the full schema and
an empty `users` table is created. -/
def init_database (_fs : Option StoreFile) : Option StoreFile :=
  some { columns := fullColumns, users := [] }

/-- The database part of `on_startup` (lines 904-935): `init_database()`
is called unconditionally. -/
def on_startup_db (fs : Option StoreFile) : Option StoreFile :=
  init_database fs

/-- The schema check at the top of `command_start` (lines 377-404): a
missing file is initialised; an existing file keeps its data when every
required column is present, and is removed and re-initialised when any
required column is missing. -/
def command_start_db_check (fs : Option StoreFile) : Option StoreFile :=
  match fs with
  | none => init_database none
  | some st =>
    let missing := List.filter (fun c => !(List.contains st.columns c))
      requiredColumns
    if missing.isEmpty then some st
    else init_database (some st)

/-- The record-creation step of `command_start` (lines 406-407):
`if not user_exists(user_id): add_user(...)`. -/
def command_start_record (db : DB) (uid : Int) (username full_name : String)
    (now : Nat) : DB :=
  if user_exists db uid then db
  else (add_user false db uid username full_name now).2

/-- Outcome of `command_export` (lines 764-809). -/
inductive ExportOutcome
  | denied
  | errorMessage (err : String)
  | emptyNotice
  | file (rows : List UserRecord)
deriving DecidableEq

/-- `command_export` (lines 764-809): denies any requester whose id
differs from `ADMIN_ID` before touching the store; otherwise runs
`export_users_to_excel` and reports its error, the empty notice, or the
exported rows. -/
def command_export (admin_id user_id : Int) (db : DB) : ExportOutcome :=
  if user_id ≠ admin_id then ExportOutcome.denied
  else
    match export_users_to_excel db with
    | (_, some err) => ExportOutcome.errorMessage err
    | (none, none) => ExportOutcome.emptyNotice
    | (some rows, none) => ExportOutcome.file rows

/-- Outcome of `command_stats` (lines 812-855). -/
inductive StatsOutcome
  | denied
  | shown (stats : UserStats)
deriving DecidableEq

/-- `command_stats` (lines 812-855): denies any requester whose id
differs from `ADMIN_ID` before touching the store; otherwise retrieves
and shows `get_user_stats`. -/
def command_stats (admin_id user_id : Int) (db : DB) : StatsOutcome :=
  if user_id ≠ admin_id then StatsOutcome.denied
  else StatsOutcome.shown (get_user_stats db)

example : pyIntParse "25" = some 25 := by decide
example : pyIntParse "9" = some 9 := by decide
example : pyIntParse "abc" = none := by decide
example : pyIntParse " -7 " = some (-7) := by decide
example : pyIntParse "1_0" = some 10 := by decide
example : pyIntParse "1__0" = none := by decide
example : pyIntParse "_1" = none := by decide
example : pyIntParse "1_" = none := by decide
example : stripLeadingAt "@abc" = "abc" := by decide
example :
    (handle_age_input ⟨some FormState.age, ⟨some "Anna", none⟩⟩ [] "25").1.form
      = some FormState.phone := by decide

/-- A `user_exists` failure means no row matches the id. -/
lemma user_exists_false_iff (db : DB) (uid : Int) :
    user_exists db uid = false ↔ ∀ r ∈ db, r.user_id ≠ uid := by
  simp [user_exists, List.any_eq_false]

/-- An `UPDATE ... WHERE user_id = ?` touching no matching row is the
identity on the table. -/
lemma map_update_of_absent (db : DB) (uid : Int) (f : UserRecord → UserRecord)
    (h : ∀ r ∈ db, r.user_id ≠ uid) :
    List.map (fun r => if r.user_id = uid then f r else r) db = db := by
  induction db with
  | nil => rfl
  | cons x xs ih =>
    simp only [List.map_cons]
    rw [if_neg (h x (by simp))]
    rw [ih (fun r hr => h r (by simp [hr]))]

/-- A fault-free insert of an absent user appends exactly one fresh row. -/
lemma add_user_of_absent (db : DB) (uid : Int) (u f : String) (t : Nat)
    (h : user_exists db uid = false) :
    (add_user false db uid u f t).2 =
      db ++ [⟨uid, some u, f, none, none, none, none, none, t⟩] := by
  simp [add_user, h]

/-- After a successful insert the user exists. -/
lemma user_exists_add_user (db : DB) (uid : Int) (u f : String) (t : Nat) :
    user_exists (add_user false db uid u f t).2 uid = true := by
  cases hu : user_exists db uid with
  | true => simp [add_user, hu]
  | false =>
    rw [add_user_of_absent db uid u f t hu]
    rw [user_exists, List.any_append]
    simp

/-- The age input is rejected (the `ValueError` branch or the range
check): the condition under which `handle_age_input` re-prompts. -/
def ageInputInvalid (t : String) : Bool :=
  match pyIntParse (pyStrip t) with
  | none => true
  | some a => decide (a < 10 ∨ a > 100)

/-- An invalid age input leaves conversation and store untouched. -/
lemma handle_age_input_invalid (conv : Conv) (db : DB) (t : String)
    (h : ageInputInvalid t = true) :
    handle_age_input conv db t = (conv, db) := by
  unfold ageInputInvalid at h
  cases hp : pyIntParse (pyStrip t) with
  | none => simp [handle_age_input, hp]
  | some a =>
    rw [hp] at h
    simp only [decide_eq_true_eq] at h
    simp [handle_age_input, hp, h]

/-- `INSERT OR IGNORE` for an already present user is a no-op returning
success. -/
lemma add_user_of_present (db : DB) (uid : Int) (u f : String) (t : Nat)
    (h : user_exists db uid = true) :
    add_user false db uid u f t = (true, db) := by
  simp [add_user, h]

/-- Any run of invalid age inputs leaves the pair (conversation, store)
fixed. -/
lemma foldl_age_invalid (conv : Conv) (db : DB) (inputs : List String)
    (h : ∀ s ∈ inputs, ageInputInvalid s = true) :
    List.foldl (fun p s => handle_age_input p.1 p.2 s) (conv, db) inputs
      = (conv, db) := by
  induction inputs with
  | nil => rfl
  | cons x xs ih =>
    rw [List.foldl_cons]
    rw [show handle_age_input (conv, db).1 (conv, db).2 x = (conv, db) from
      handle_age_input_invalid conv db x (h x (by simp))]
    exact ih (fun s hs => h s (by simp [hs]))

/-- C5: at every intake state (CustomProblemEntry, NameEntry, AgeEntry,
ContactEntry) an input that fails validation leaves the conversation
state unchanged and commits nothing to the FSM data or the record store;
in particular any number of consecutive failed AgeEntry attempts leaves
the state at AgeEntry with no age committed. -/
theorem validation_failure_preserves_state (uid : Int) (conv : Conv)
    (db : DB) (t : String) :
    (pyLen (pyStrip t) < 10 →
      handle_custom_problem_input uid conv db t = (conv, db))
    ∧ (pyLen (pyStrip t) < 2 → handle_name_input conv db t = (conv, db))
    ∧ (ageInputInvalid t = true → handle_age_input conv db t = (conv, db))
    ∧ (pyLen (pyStrip t) < 3 → handle_phone_input uid conv db t = (conv, db))
    ∧ (∀ inputs : List String, (∀ s ∈ inputs, ageInputInvalid s = true) →
        List.foldl (fun p s => handle_age_input p.1 p.2 s) (conv, db) inputs
          = (conv, db)) := by
  refine ⟨fun h => ?_, fun h => ?_, handle_age_input_invalid conv db t,
    fun h => ?_, foldl_age_invalid conv db⟩
  · simp [handle_custom_problem_input, h]
  · simp [handle_name_input, h]
  · simp [handle_phone_input, h]

/-- Witness for C5 at concrete inputs: a short custom problem, a
one-character name, non-numeric and out-of-range ages, and a short
handle all leave the conversation and the store untouched. -/
theorem validation_failure_preserves_state_witness :
    handle_custom_problem_input 1 ⟨some FormState.custom_problem, ⟨none, none⟩⟩
        [] "short" = (⟨some FormState.custom_problem, ⟨none, none⟩⟩, [])
    ∧ handle_name_input ⟨some FormState.name, ⟨none, none⟩⟩ [] "A"
        = (⟨some FormState.name, ⟨none, none⟩⟩, [])
    ∧ handle_age_input ⟨some FormState.age, ⟨some "Anna", none⟩⟩ [] "abc"
        = (⟨some FormState.age, ⟨some "Anna", none⟩⟩, [])
    ∧ handle_phone_input 1 ⟨some FormState.phone, ⟨some "Anna", some 29⟩⟩ [] "ab"
        = (⟨some FormState.phone, ⟨some "Anna", some 29⟩⟩, [])
    ∧ List.foldl (fun p s => handle_age_input p.1 p.2 s)
        (⟨some FormState.age, ⟨some "Anna", none⟩⟩, []) ["abc", "9", "101"]
        = (⟨some FormState.age, ⟨some "Anna", none⟩⟩, []) := by
  refine ⟨?_, ?_, ?_, ?_, ?_⟩
  · exact (validation_failure_preserves_state 1 _ [] "short").1 (by decide)
  · exact (validation_failure_preserves_state 1 _ [] "A").2.1 (by decide)
  · exact (validation_failure_preserves_state 1 _ [] "abc").2.2.1 (by decide)
  · exact (validation_failure_preserves_state 1 _ [] "ab").2.2.2.1 (by decide)
  · exact (validation_failure_preserves_state 1 _ [] "x").2.2.2.2
      ["abc", "9", "101"] (by decide)

/-- C7: at the AgeEntry state the commit succeeds (the state advances to
ContactEntry with the parsed age held) iff the trimmed input parses as an
integer in `[10,100]`; otherwise nothing changes. -/
theorem age_commit_iff_valid (conv : Conv) (db : DB) (t : String)
    (h : conv.form = some FormState.age) :
    ((handle_age_input conv db t).1.form = some FormState.phone ↔
      ∃ a : Int, pyIntParse (pyStrip t) = some a ∧ 10 ≤ a ∧ a ≤ 100)
    ∧ ((handle_age_input conv db t).1.form ≠ some FormState.phone →
        handle_age_input conv db t = (conv, db)) := by
  cases hp : pyIntParse (pyStrip t) with
  | none =>
    have he : handle_age_input conv db t = (conv, db) := by
      simp [handle_age_input, hp]
    rw [he]
    constructor
    · rw [h]
      simp [hp]
    · intro _
      rfl
  | some a =>
    by_cases hr : a < 10 ∨ a > 100
    · have he : handle_age_input conv db t = (conv, db) := by
        simp [handle_age_input, hp, hr]
      rw [he]
      constructor
      · rw [h]
        constructor
        · intro hc
          exact absurd hc (by simp)
        · rintro ⟨b, hb, hb1, hb2⟩
          have hab := Option.some_inj.mp hb
          exfalso
          omega
      · intro _
        rfl
    · push_neg at hr
      have he : handle_age_input conv db t
          = ({ form := some FormState.phone,
               data := { conv.data with age := some a } }, db) := by
        simp only [handle_age_input, hp]
        rw [if_neg (by omega)]
      rw [he]
      refine ⟨⟨fun _ => ⟨a, rfl, hr.1, hr.2⟩, fun _ => rfl⟩,
        fun hc => absurd rfl hc⟩

/-- Witness for C7: "25" commits and advances; "9", "101" and "abc"
leave everything unchanged. -/
theorem age_commit_iff_valid_witness :
    (handle_age_input ⟨some FormState.age, ⟨some "Anna", none⟩⟩ [] "25").1.form
      = some FormState.phone
    ∧ handle_age_input ⟨some FormState.age, ⟨some "Anna", none⟩⟩ [] "9"
      = (⟨some FormState.age, ⟨some "Anna", none⟩⟩, [])
    ∧ handle_age_input ⟨some FormState.age, ⟨some "Anna", none⟩⟩ [] "101"
      = (⟨some FormState.age, ⟨some "Anna", none⟩⟩, [])
    ∧ handle_age_input ⟨some FormState.age, ⟨some "Anna", none⟩⟩ [] "abc"
      = (⟨some FormState.age, ⟨some "Anna", none⟩⟩, []) := by
  refine ⟨?_, ?_, ?_, ?_⟩
  · exact (age_commit_iff_valid _ [] "25" rfl).1.mpr
      ⟨25, by decide, by decide, by decide⟩
  · exact (age_commit_iff_valid _ [] "9" rfl).2 (by decide)
  · exact (age_commit_iff_valid _ [] "101" rfl).2 (by decide)
  · exact (age_commit_iff_valid _ [] "abc" rfl).2 (by decide)

/-- C6: `update_user_contact_info` is all-or-nothing: on a storage fault
it reports failure and the table is byte-for-byte unchanged; otherwise
every row either is an untouched original row or carries all three new
contact values together.  No partial update exists. -/
theorem setContactInfo_all_or_nothing (fl : Bool) (db : DB) (uid : Int)
    (rn : String) (a : Int) (ph : String) :
    ((update_user_contact_info fl db uid rn a ph).1 = false →
      (update_user_contact_info fl db uid rn a ph).2 = db)
    ∧ (∀ r ∈ (update_user_contact_info fl db uid rn a ph).2,
        r ∈ db ∨ (r.real_name = some rn ∧ r.age = some a ∧ r.phone = some ph)) := by
  cases fl with
  | true =>
    exact ⟨fun _ => rfl, fun r hr => Or.inl hr⟩
  | false =>
    constructor
    · intro hf
      simp [update_user_contact_info] at hf
    · intro r hr
      have hr' : r ∈ List.map (fun x => if x.user_id = uid then
          { x with real_name := some rn, age := some a, phone := some ph }
          else x) db := hr
      rw [List.mem_map] at hr'
      obtain ⟨x, hx, hfx⟩ := hr'
      by_cases hid : x.user_id = uid
      · right
        rw [← hfx]
        simp [hid]
      · left
        rw [← hfx, if_neg hid]
        exact hx

/-- Witness for C6: a faulted call reports failure and changes nothing. -/
theorem setContactInfo_all_or_nothing_witness :
    (update_user_contact_info true
      [⟨1, some "u", "Anna F", none, none, none, none, none, 0⟩]
      1 "Anna" 29 "anna_t").2
      = [⟨1, some "u", "Anna F", none, none, none, none, none, 0⟩] :=
  (setContactInfo_all_or_nothing true
    [⟨1, some "u", "Anna F", none, none, none, none, none, 0⟩]
    1 "Anna" 29 "anna_t").1 rfl

/-- C8: for an absent user, calling `add_user` twice (with any identity
strings) leaves exactly one row for that id, and the second call returns
the store of the first call unchanged. -/
theorem createIfAbsent_idempotent (db : DB) (uid : Int)
    (u1 f1 u2 f2 : String) (t1 t2 : Nat)
    (h : user_exists db uid = false) :
    (add_user false (add_user false db uid u1 f1 t1).2 uid u2 f2 t2).2
      = (add_user false db uid u1 f1 t1).2
    ∧ List.countP (fun r => r.user_id == uid)
        (add_user false (add_user false db uid u1 f1 t1).2 uid u2 f2 t2).2
      = 1 := by
  have h1 := user_exists_add_user db uid u1 f1 t1
  have h2 : add_user false (add_user false db uid u1 f1 t1).2 uid u2 f2 t2
      = (true, (add_user false db uid u1 f1 t1).2) :=
    add_user_of_present _ uid u2 f2 t2 h1
  have hz : List.countP (fun r => r.user_id == uid) db = 0 := by
    rw [List.countP_eq_zero]
    intro r hr
    have := (user_exists_false_iff db uid).mp h r hr
    simp [this]
  constructor
  · rw [h2]
  · rw [h2]
    simp only
    rw [add_user_of_absent db uid u1 f1 t1 h]
    rw [List.countP_append, hz]
    simp

/-- Witness for C8 starting from an empty store. -/
theorem createIfAbsent_idempotent_witness :
    (add_user false (add_user false [] 1 "u" "Anna F" 0).2 1 "v" "Other" 1).2
      = (add_user false [] 1 "u" "Anna F" 0).2
    ∧ List.countP (fun r => r.user_id == 1)
        (add_user false (add_user false [] 1 "u" "Anna F" 0).2 1 "v" "Other" 1).2
      = 1 :=
  createIfAbsent_idempotent [] 1 "u" "Anna F" "v" "Other" 0 1 (by decide)

/-- C9: the export and stats commands are refused with a denial for every
requester whose id differs from the configured operator id, performing no
export and no stats retrieval; with the operator id they run the export
and show the statistics. -/
theorem admin_gate (admin_id user_id : Int) (db : DB) :
    (user_id ≠ admin_id →
      command_export admin_id user_id db = ExportOutcome.denied
      ∧ command_stats admin_id user_id db = StatsOutcome.denied)
    ∧ (user_id = admin_id →
      command_export admin_id user_id db ≠ ExportOutcome.denied
      ∧ command_stats admin_id user_id db
          = StatsOutcome.shown (get_user_stats db)) := by
  constructor
  · intro h
    exact ⟨by simp [command_export, h], by simp [command_stats, h]⟩
  · intro h
    subst h
    constructor
    · rcases hx : export_users_to_excel db with ⟨o, e⟩
      cases o <;> cases e <;> simp [command_export, hx]
    · simp [command_stats]

/-- Witness for C9: id 2 is denied by both commands when the operator is
id 1; id 1 is shown the statistics. -/
theorem admin_gate_witness :
    command_export 1 2 [] = ExportOutcome.denied
    ∧ command_stats 1 2 [] = StatsOutcome.denied
    ∧ command_stats 1 1 [] = StatsOutcome.shown (get_user_stats []) :=
  ⟨((admin_gate 1 2 []).1 (by decide)).1,
   ((admin_gate 1 2 []).1 (by decide)).2,
   ((admin_gate 1 1 []).2 rfl).2⟩

/-- C10: for an absent user id, `update_user_problem` and
`update_user_contact_info` report success yet leave the store completely
unchanged: zero rows are updated and no record is created. -/
theorem update_absent_user_noop (db : DB) (uid : Int) (seg : String)
    (cp : Option String) (rn : String) (a : Int) (ph : String)
    (h : user_exists db uid = false) :
    update_user_problem false db uid seg cp = (true, db)
    ∧ update_user_contact_info false db uid rn a ph = (true, db) := by
  have hne := (user_exists_false_iff db uid).mp h
  constructor
  · have e1 : update_user_problem false db uid seg cp
        = if pyTruthyStr cp && (seg == CallbackData.CUSTOM)
          then (true, List.map (fun r => if r.user_id = uid then
            { r with problem_segment := some seg, custom_problem := cp }
            else r) db)
          else (true, List.map (fun r => if r.user_id = uid then
            { r with problem_segment := some seg } else r) db) := rfl
    rw [e1]
    split
    · rw [map_update_of_absent db uid _ hne]
    · rw [map_update_of_absent db uid _ hne]
  · have e2 : update_user_contact_info false db uid rn a ph
        = (true, List.map (fun r => if r.user_id = uid then
            { r with real_name := some rn, age := some a, phone := some ph }
            else r) db) := rfl
    rw [e2]
    rw [map_update_of_absent db uid _ hne]

/-- Witness for C10: a store holding only user 2 is untouched by updates
aimed at the absent user 1, which still report success. -/
theorem update_absent_user_noop_witness :
    update_user_problem false
      [⟨2, some "u", "Bob", none, none, none, none, none, 0⟩]
      1 "Тревога/Стресс" none
      = (true, [⟨2, some "u", "Bob", none, none, none, none, none, 0⟩])
    ∧ update_user_contact_info false
      [⟨2, some "u", "Bob", none, none, none, none, none, 0⟩]
      1 "Anna" 29 "anna_t"
      = (true, [⟨2, some "u", "Bob", none, none, none, none, none, 0⟩]) :=
  update_absent_user_noop
    [⟨2, some "u", "Bob", none, none, none, none, none, 0⟩]
    1 "Тревога/Стресс" none "Anna" 29 "anna_t" (by decide)

/-- C1 counterexample: the claim says "@ab" (2 characters after
stripping) fails validation at ContactEntry; in the code the length
check runs BEFORE the strip, so "@ab" (length 3) passes, the state is
cleared and the 2-character handle "ab" is committed. -/
theorem contact_at_ab_passes_validation :
    (handle_phone_input 1 ⟨some FormState.phone, ⟨some "Anna", some 29⟩⟩
      [⟨1, some "u", "Anna F", none, none, none, none, none, 0⟩] "@ab").1.form
      = none
    ∧ (handle_phone_input 1 ⟨some FormState.phone, ⟨some "Anna", some 29⟩⟩
      [⟨1, some "u", "Anna F", none, none, none, none, none, 0⟩] "@ab").2
      = [⟨1, some "u", "Anna F", none, none, some "Anna", some 29,
          some "ab", 0⟩] :=
  ⟨by decide, by decide⟩

/-- C1 (amended): at ContactEntry, validation succeeds iff the trimmed
input has length ≥ 3 BEFORE the single leading `@` is stripped; the
strip happens only after validation, after which name, age and the
normalized handle are committed and the state is cleared.  On failure
nothing changes. -/
theorem contact_validation_before_strip (uid : Int) (conv : Conv) (db : DB)
    (t : String) (h : conv.form = some FormState.phone) :
    ((handle_phone_input uid conv db t).1.form = none ↔ 3 ≤ pyLen (pyStrip t))
    ∧ (pyLen (pyStrip t) < 3 → handle_phone_input uid conv db t = (conv, db))
    ∧ (3 ≤ pyLen (pyStrip t) →
        handle_phone_input uid conv db t
          = (clearedConv,
             (update_user_contact_info false db uid
               (conv.data.name.getD "Не указано") (conv.data.age.getD 0)
               (stripLeadingAt (pyStrip t))).2)) := by
  by_cases hl : pyLen (pyStrip t) < 3
  · have he : handle_phone_input uid conv db t = (conv, db) := by
      simp [handle_phone_input, hl]
    rw [he]
    refine ⟨?_, fun _ => rfl, fun hge => absurd hge (by omega)⟩
    rw [h]
    constructor
    · intro hc
      exact absurd hc (by simp)
    · intro hge
      exact absurd hge (by omega)
  · push_neg at hl
    have he : handle_phone_input uid conv db t
        = (clearedConv,
           (update_user_contact_info false db uid
             (conv.data.name.getD "Не указано") (conv.data.age.getD 0)
             (stripLeadingAt (pyStrip t))).2) := by
      simp only [handle_phone_input]
      rw [if_neg (by omega)]
    rw [he]
    exact ⟨⟨fun _ => hl, fun _ => rfl⟩, fun hlt => absurd hlt (by omega),
      fun _ => rfl⟩

/-- Witness for the amended C1: "@abc" passes validation and clears the
state. -/
theorem contact_validation_before_strip_witness :
    3 ≤ pyLen (pyStrip "@abc")
    ∧ (handle_phone_input 1 ⟨some FormState.phone, ⟨some "Anna", some 29⟩⟩
        [] "@abc").1.form = none :=
  ⟨by decide,
   (contact_validation_before_strip 1 _ [] "@abc" rfl).1.mpr (by decide)⟩

/-- The spec invariant of C2 as a decidable check: every record's
`customProblemText` is non-empty only if its category is Custom. -/
def customTextOnlyWhenCustom (db : DB) : Bool :=
  List.all db (fun r => !(pyTruthyStr r.custom_problem)
    || (r.problem_segment == some CallbackData.CUSTOM))

/-- C2 counterexample: store a custom problem for user 1, then select
the fixed Anxiety category; the resulting record carries the fixed
category together with the old non-empty custom text, violating the
invariant. -/
theorem custom_text_survives_fixed_selection_cex :
    customTextOnlyWhenCustom
      (handle_problem_selection 1 CallbackData.ANXIETY
        (handle_custom_problem_input 1
          ⟨some FormState.custom_problem, ⟨none, none⟩⟩
          [⟨1, some "u", "Anna F", none, none, none, none, none, 0⟩]
          "0123456789").2)
      = false
    ∧ List.map (fun r => (r.problem_segment, r.custom_problem))
        (handle_problem_selection 1 CallbackData.ANXIETY
          (handle_custom_problem_input 1
            ⟨some FormState.custom_problem, ⟨none, none⟩⟩
            [⟨1, some "u", "Anna F", none, none, none, none, none, 0⟩]
            "0123456789").2)
      = [(some "Тревога/Стресс", some "0123456789")] :=
  ⟨by decide, by decide⟩

/-- A map that does not touch `custom_problem` leaves the column
unchanged. -/
lemma map_custom_problem_view (db : DB) (f : UserRecord → UserRecord)
    (h : ∀ r, (f r).custom_problem = r.custom_problem) :
    List.map (fun r => r.custom_problem) (List.map f db)
      = List.map (fun r => r.custom_problem) db := by
  induction db with
  | nil => rfl
  | cons x xs ih => simp [h x, ih]

/-- C2 (amended): a single `update_user_problem` call writes
`customProblemText` only on a Custom-category call, but a fixed-category
selection does NOT clear a previously stored text: the whole
`custom_problem` column is left unchanged, so after a custom problem a
record can keep non-empty `customProblemText` next to a non-Custom
category. -/
theorem custom_text_not_cleared_by_fixed_selection (db : DB) (uid : Int)
    (k : String) :
    List.map (fun r => r.custom_problem) (handle_problem_selection uid k db)
      = List.map (fun r => r.custom_problem) db
    ∧ (∀ seg cp, (seg == CallbackData.CUSTOM) = false →
        List.map (fun r => r.custom_problem)
            (update_user_problem false db uid seg cp).2
          = List.map (fun r => r.custom_problem) db) := by
  constructor
  · have e : handle_problem_selection uid k db
        = List.map (fun r => if r.user_id = uid then
            { r with problem_segment := some (PROBLEM_NAMES_get k "Неизвестная проблема") }
            else r) db := rfl
    rw [e]
    exact map_custom_problem_view db _ (fun r => by
      by_cases hid : r.user_id = uid <;> simp [hid])
  · intro seg cp hseg
    have hcond : (pyTruthyStr cp && (seg == CallbackData.CUSTOM)) = false := by
      rw [hseg, Bool.and_false]
    have e : (update_user_problem false db uid seg cp).2
        = List.map (fun r => if r.user_id = uid then
            { r with problem_segment := some seg } else r) db := by
      unfold update_user_problem
      simp [hcond]
    rw [e]
    exact map_custom_problem_view db _ (fun r => by
      by_cases hid : r.user_id = uid <;> simp [hid])

/-- Witness for the amended C2 at a concrete store. -/
theorem custom_text_not_cleared_witness :
    List.map (fun r => r.custom_problem)
      (handle_problem_selection 1 CallbackData.ANXIETY
        [⟨1, some "u", "Anna F", some "btn_custom", some "0123456789",
          none, none, none, 0⟩])
      = [some "0123456789"]
    ∧ List.map (fun r => r.custom_problem)
        (update_user_problem false
          [⟨1, some "u", "Anna F", some "btn_custom", some "0123456789",
            none, none, none, 0⟩]
          1 "Тревога/Стресс" (some "ignored text")).2
      = [some "0123456789"] := by
  constructor
  · rw [(custom_text_not_cleared_by_fixed_selection
      [⟨1, some "u", "Anna F", some "btn_custom", some "0123456789",
        none, none, none, 0⟩] 1 CallbackData.ANXIETY).1]
    decide
  · rw [(custom_text_not_cleared_by_fixed_selection
      [⟨1, some "u", "Anna F", some "btn_custom", some "0123456789",
        none, none, none, 0⟩] 1 CallbackData.ANXIETY).2
      "Тревога/Стресс" (some "ignored text") (by decide)]
    decide

/-- Appending rows preserves existence of a user. -/
lemma user_exists_append (db : DB) (l : List UserRecord) (uid : Int)
    (h : user_exists db uid = true) : user_exists (db ++ l) uid = true := by
  unfold user_exists at h ⊢
  rw [List.any_append, h]
  rfl

/-- An id-preserving row transformation preserves existence of a user. -/
lemma user_exists_map (db : DB) (f : UserRecord → UserRecord)
    (h : ∀ r, (f r).user_id = r.user_id) (uid : Int)
    (hex : user_exists db uid = true) :
    user_exists (List.map f db) uid = true := by
  unfold user_exists at hex ⊢
  induction db with
  | nil => simp at hex
  | cons x xs ih =>
    simp only [List.map_cons, List.any_cons, Bool.or_eq_true] at hex ⊢
    rcases hex with h1 | h2
    · left
      rw [show (f x).user_id = x.user_id from h x]
      exact h1
    · right
      exact ih h2

/-- C3 counterexample: a store whose schema has every required column
and which holds user 1 is nevertheless wiped by process startup —
`on_startup` calls `init_database`, which deletes the existing file
unconditionally. -/
theorem startup_resets_intact_store_cex :
    (List.filter (fun c => !(List.contains fullColumns c)) requiredColumns).isEmpty
      = true
    ∧ user_exists
        (StoreFile.users ⟨fullColumns,
          [⟨1, some "u", "Anna F", none, none, none, none, none, 0⟩]⟩) 1
      = true
    ∧ on_startup_db (some ⟨fullColumns,
        [⟨1, some "u", "Anna F", none, none, none, none, none, 0⟩]⟩)
      = some ⟨fullColumns, []⟩ :=
  ⟨by decide, by decide, by decide⟩

/-- C3 (amended): record creation, problem update and contact commit
never delete an existing user record, and the `/start`-command schema
check keeps a store whose schema has all required columns; but process
startup runs `init_database` unconditionally and so recreates the store
empty even when the schema is intact. -/
theorem record_ops_preserve_startup_resets :
    (∀ (fl : Bool) (db : DB) (uid : Int) (u f : String) (now : Nat)
        (uidq : Int), user_exists db uidq = true →
        user_exists (add_user fl db uid u f now).2 uidq = true)
    ∧ (∀ (fl : Bool) (db : DB) (uid : Int) (seg : String)
        (cp : Option String) (uidq : Int), user_exists db uidq = true →
        user_exists (update_user_problem fl db uid seg cp).2 uidq = true)
    ∧ (∀ (fl : Bool) (db : DB) (uid : Int) (rn : String) (a : Int)
        (ph : String) (uidq : Int), user_exists db uidq = true →
        user_exists (update_user_contact_info fl db uid rn a ph).2 uidq = true)
    ∧ (∀ fs : Option StoreFile, on_startup_db fs = some ⟨fullColumns, []⟩)
    ∧ (∀ st : StoreFile,
        (List.filter (fun c => !(List.contains st.columns c)) requiredColumns).isEmpty
          = true →
        command_start_db_check (some st) = some st) := by
  refine ⟨?_, ?_, ?_, fun _ => rfl, ?_⟩
  · intro fl db uid u f now uidq h
    cases fl
    · cases hu : user_exists db uid
      · rw [add_user_of_absent db uid u f now hu]
        exact user_exists_append db _ uidq h
      · rw [show (add_user false db uid u f now).2 = db from by
          rw [add_user_of_present db uid u f now hu]]
        exact h
    · exact h
  · intro fl db uid seg cp uidq h
    cases fl
    · by_cases hc : (pyTruthyStr cp && (seg == CallbackData.CUSTOM)) = true
      · have e : (update_user_problem false db uid seg cp).2
            = List.map (fun r => if r.user_id = uid then
                { r with problem_segment := some seg, custom_problem := cp }
                else r) db := by
          unfold update_user_problem
          simp [hc]
        rw [e]
        refine user_exists_map db _ (fun r => ?_) uidq h
        by_cases hid : r.user_id = uid <;> simp [hid]
      · have hc' : (pyTruthyStr cp && (seg == CallbackData.CUSTOM)) = false :=
          Bool.eq_false_iff.mpr hc
        have e : (update_user_problem false db uid seg cp).2
            = List.map (fun r => if r.user_id = uid then
                { r with problem_segment := some seg } else r) db := by
          unfold update_user_problem
          rw [hc']
          simp
        rw [e]
        refine user_exists_map db _ (fun r => ?_) uidq h
        by_cases hid : r.user_id = uid <;> simp [hid]
    · exact h
  · intro fl db uid rn a ph uidq h
    cases fl
    · have e : (update_user_contact_info false db uid rn a ph).2
          = List.map (fun r => if r.user_id = uid then
              { r with real_name := some rn, age := some a, phone := some ph }
              else r) db := rfl
      rw [e]
      refine user_exists_map db _ (fun r => ?_) uidq h
      by_cases hid : r.user_id = uid <;> simp [hid]
    · exact h
  · intro st hmiss
    have e : command_start_db_check (some st)
        = if (List.filter (fun c => !(List.contains st.columns c)) requiredColumns).isEmpty
          then some st else init_database (some st) := rfl
    rw [e, if_pos hmiss]

/-- Witness for the amended C3 at concrete stores. -/
theorem record_ops_preserve_startup_resets_witness :
    user_exists (add_user false
      [⟨1, some "u", "Anna F", none, none, none, none, none, 0⟩]
      2 "v" "Bob B" 1).2 1 = true
    ∧ on_startup_db none = some ⟨fullColumns, []⟩
    ∧ command_start_db_check (some ⟨fullColumns,
        [⟨1, some "u", "Anna F", none, none, none, none, none, 0⟩]⟩)
      = some ⟨fullColumns,
        [⟨1, some "u", "Anna F", none, none, none, none, none, 0⟩]⟩ :=
  ⟨record_ops_preserve_startup_resets.1 false
    [⟨1, some "u", "Anna F", none, none, none, none, none, 0⟩]
    2 "v" "Bob B" 1 1 (by decide),
   record_ops_preserve_startup_resets.2.2.2.1 none,
   record_ops_preserve_startup_resets.2.2.2.2 _ (by decide)⟩

/-- The spec notion of a complete record: all three contact fields set. -/
def spec_completeRecords (db : DB) : Nat :=
  List.length (List.filter
    (fun r => r.real_name.isSome && r.age.isSome && r.phone.isSome) db)

/-- Store states reachable through the write API from the empty table
just created by `init_database`, paired with the number of records
actually created by a successful `INSERT OR IGNORE`. -/
inductive Reach : DB → Nat → Prop
  | empty : Reach [] 0
  | add (db : DB) (n : Nat) (fl : Bool) (uid : Int) (u f : String) (t : Nat) :
      Reach db n →
      Reach (add_user fl db uid u f t).2
        (if fl || user_exists db uid then n else n + 1)
  | problem (db : DB) (n : Nat) (fl : Bool) (uid : Int) (seg : String)
      (cp : Option String) :
      Reach db n → Reach (update_user_problem fl db uid seg cp).2 n
  | contact (db : DB) (n : Nat) (fl : Bool) (uid : Int) (rn : String)
      (a : Int) (ph : String) :
      Reach db n → Reach (update_user_contact_info fl db uid rn a ph).2 n

/-- Pointwise-equal filters agree. -/
lemma filter_congr_mem {p q : UserRecord → Bool} (l : List UserRecord)
    (h : ∀ x ∈ l, p x = q x) : List.filter p l = List.filter q l := by
  induction l with
  | nil => rfl
  | cons x xs ih =>
    simp only [List.filter_cons]
    rw [h x (by simp), ih (fun y hy => h y (by simp [hy]))]

/-- A property transported along a row transformation survives `map`. -/
lemma forall_mem_map_of_pres (db : DB) (f : UserRecord → UserRecord)
    (P : UserRecord → Prop) (hf : ∀ r, P r → P (f r))
    (h : ∀ r ∈ db, P r) : ∀ r ∈ List.map f db, P r := by
  intro r hr
  rw [List.mem_map] at hr
  obtain ⟨x, hx, rfl⟩ := hr
  exact hf x (h x hx)

/-- Structural invariant of reachable stores: the row count equals the
number of successful creations, and a row has `real_name` and `phone`
set exactly when it has all three contact fields set (the code only ever
writes the three together). -/
lemma reach_inv (db : DB) (n : Nat) (h : Reach db n) :
    List.length db = n
    ∧ ∀ r ∈ db, (r.real_name.isSome && r.phone.isSome)
        = (r.real_name.isSome && r.age.isSome && r.phone.isSome) := by
  induction h with
  | empty => exact ⟨rfl, by simp⟩
  | add db n fl uid u f t hr ih =>
    obtain ⟨ihlen, ihinv⟩ := ih
    cases fl with
    | true => exact ⟨ihlen, ihinv⟩
    | false =>
      cases hu : user_exists db uid with
      | true =>
        rw [show (add_user false db uid u f t).2 = db from by
          rw [add_user_of_present db uid u f t hu]]
        constructor
        · simpa using ihlen
        · exact ihinv
      | false =>
        rw [add_user_of_absent db uid u f t hu]
        constructor
        · simp [List.length_append, ihlen]
        · intro r hrr
          rcases List.mem_append.mp hrr with h1 | h2
          · exact ihinv r h1
          · rw [List.mem_singleton] at h2
            subst h2
            rfl
  | problem db n fl uid seg cp hr ih =>
    obtain ⟨ihlen, ihinv⟩ := ih
    cases fl with
    | true => exact ⟨ihlen, ihinv⟩
    | false =>
      by_cases hc : (pyTruthyStr cp && (seg == CallbackData.CUSTOM)) = true
      · have e : (update_user_problem false db uid seg cp).2
            = List.map (fun r => if r.user_id = uid then
                { r with problem_segment := some seg, custom_problem := cp }
                else r) db := by
          unfold update_user_problem
          simp [hc]
        rw [e]
        refine ⟨by rw [List.length_map, ihlen], ?_⟩
        refine forall_mem_map_of_pres db _ _ (fun r hp => ?_) ihinv
        by_cases hid : r.user_id = uid
        · simpa [hid] using hp
        · simpa [hid] using hp
      · have hc' : (pyTruthyStr cp && (seg == CallbackData.CUSTOM)) = false :=
          Bool.eq_false_iff.mpr hc
        have e : (update_user_problem false db uid seg cp).2
            = List.map (fun r => if r.user_id = uid then
                { r with problem_segment := some seg } else r) db := by
          unfold update_user_problem
          rw [hc']
          simp
        rw [e]
        refine ⟨by rw [List.length_map, ihlen], ?_⟩
        refine forall_mem_map_of_pres db _ _ (fun r hp => ?_) ihinv
        by_cases hid : r.user_id = uid
        · simpa [hid] using hp
        · simpa [hid] using hp
  | contact db n fl uid rn a ph hr ih =>
    obtain ⟨ihlen, ihinv⟩ := ih
    cases fl with
    | true => exact ⟨ihlen, ihinv⟩
    | false =>
      have e : (update_user_contact_info false db uid rn a ph).2
          = List.map (fun r => if r.user_id = uid then
              { r with real_name := some rn, age := some a, phone := some ph }
              else r) db := rfl
      rw [e]
      refine ⟨by rw [List.length_map, ihlen], ?_⟩
      refine forall_mem_map_of_pres db _ _ (fun r hp => ?_) ihinv
      by_cases hid : r.user_id = uid
      · simp [hid]
      · simpa [hid] using hp

/-- C4: on every reachable store, `get_user_stats` reports
`total_users` equal to the number of records created via the
create-if-absent insert, and `users_with_requests` equal to the number
of records with all three contact fields set. -/
theorem stats_counts_reachable (db : DB) (n : Nat) (h : Reach db n) :
    (get_user_stats db).total_users = n
    ∧ (get_user_stats db).users_with_requests = spec_completeRecords db := by
  obtain ⟨hlen, hinv⟩ := reach_inv db n h
  refine ⟨hlen, ?_⟩
  unfold get_user_stats spec_completeRecords
  simp only
  rw [filter_congr_mem db hinv]

/-- Witness for C4: create user 1, commit contact data, and check both
counts on the resulting store. -/
theorem stats_counts_reachable_witness :
    (get_user_stats (update_user_contact_info false
      (add_user false [] 1 "u" "Anna F" 0).2 1 "Anna" 29 "anna_t").2).total_users
      = 1
    ∧ (get_user_stats (update_user_contact_info false
        (add_user false [] 1 "u" "Anna F" 0).2 1 "Anna" 29 "anna_t").2).users_with_requests
      = spec_completeRecords (update_user_contact_info false
        (add_user false [] 1 "u" "Anna F" 0).2 1 "Anna" 29 "anna_t").2 := by
  have h1 : Reach (add_user false [] 1 "u" "Anna F" 0).2 1 :=
    Reach.add [] 0 false 1 "u" "Anna F" 0 Reach.empty
  have h2 : Reach (update_user_contact_info false
      (add_user false [] 1 "u" "Anna F" 0).2 1 "Anna" 29 "anna_t").2 1 :=
    Reach.contact _ 1 false 1 "Anna" 29 "anna_t" h1
  exact stats_counts_reachable _ 1 h2
